import Mathlib

/-!
Shallow embedding of the resilience core of the repository:
the circuit breaker, timeout manager and route-timeout middleware of
server/services/llm/openai_client.py and server/api/middleware/timeout.py,
and the health aggregation of server/services/health.py.

Python floats (timestamps, timeout durations) are modelled as rationals;
Python int counters as naturals. Python exceptions are modelled as
explicit error results (Except / a dedicated error type); a Python
runtime crash (such as subtracting None) is modelled as Option.none.
-/

/-- States of the circuit breaker (enum CircuitBreakerState). -/
inductive CircuitBreakerState where
  | closed
  | open
  | halfOpen
deriving DecidableEq, Repr

/-- Configuration dataclass CircuitBreakerConfig: failure_threshold,
recovery_timeout, success_threshold, timeout (request timeout). -/
structure CircuitBreakerConfig where
  failureThreshold : Nat
  recoveryTimeout : Rat
  successThreshold : Nat
  timeout : Rat
deriving DecidableEq, Repr

/-- The default CircuitBreakerConfig (failure_threshold=5,
recovery_timeout=60.0, success_threshold=3, timeout=30.0). -/
def defaultCircuitBreakerConfig : CircuitBreakerConfig :=
  { failureThreshold := 5, recoveryTimeout := 60, successThreshold := 3, timeout := 30 }

/-- Mutable fields of a CircuitBreaker instance together with its config. -/
structure CircuitBreaker where
  config : CircuitBreakerConfig
  state : CircuitBreakerState
  failureCount : Nat
  successCount : Nat
  lastFailureTime : Option Rat
deriving DecidableEq, Repr

/-- CircuitBreaker.__init__: state CLOSED, counters 0, last_failure_time None. -/
def CircuitBreaker.init (config : CircuitBreakerConfig) : CircuitBreaker :=
  { config := config, state := .closed, failureCount := 0, successCount := 0,
    lastFailureTime := none }

/-- CircuitBreaker._should_attempt_request, at current time now.
Returns the admission decision together with the updated breaker.
In the OPEN branch the Python code evaluates
time.time() - self.last_failure_time; when last_failure_time is None that
subtraction raises TypeError, modelled here as Option.none. -/
def shouldAttemptRequest (now : Rat) (cb : CircuitBreaker) :
    Option (Bool × CircuitBreaker) :=
  match cb.state with
  | .closed => some (true, cb)
  | .open =>
    match cb.lastFailureTime with
    | none => none
    | some t =>
      if now - t ≥ cb.config.recoveryTimeout then
        some (true, { cb with state := .halfOpen, successCount := 0 })
      else
        some (false, cb)
  | .halfOpen => some (true, cb)

/-- CircuitBreaker._record_success: reset failure_count to 0; when
HALF_OPEN, increment success_count and close once it reaches
success_threshold. -/
def recordSuccess (cb : CircuitBreaker) : CircuitBreaker :=
  let cb := { cb with failureCount := 0 }
  if cb.state = .halfOpen then
    let cb := { cb with successCount := cb.successCount + 1 }
    if cb.successCount ≥ cb.config.successThreshold then
      { cb with state := .closed }
    else
      cb
  else
    cb

/-- CircuitBreaker._record_failure at time now: increment failure_count,
stamp last_failure_time, reset success_count; HALF_OPEN trips to OPEN at
once, CLOSED trips to OPEN when the counter reaches failure_threshold. -/
def recordFailure (now : Rat) (cb : CircuitBreaker) : CircuitBreaker :=
  let cb := { cb with
    failureCount := cb.failureCount + 1,
    lastFailureTime := some now,
    successCount := 0 }
  if cb.state = .halfOpen then
    { cb with state := .open }
  else if cb.state = .closed ∧ cb.failureCount ≥ cb.config.failureThreshold then
    { cb with state := .open }
  else
    cb

/-- Errors raised out of CircuitBreaker.call: the breaker-open rejection
raised before the wrapped function runs (the raise
Exception with message text Circuit breaker is OPEN - service temporarily
unavailable), or the wrapped function failure re-raised unmodified. -/
inductive CircuitBreakerCallError where
  | circuitOpen
  | wrapped (msg : String)
deriving DecidableEq, Repr

/-- Outcome of one CircuitBreaker.call: the returned value or raised
error, the breaker after the call, and whether the wrapped function was
invoked. -/
instance {ε α : Type} [DecidableEq ε] [DecidableEq α] : DecidableEq (Except ε α) :=
  fun a b =>
  match a, b with
  | .ok x, .ok y => decidable_of_iff (x = y) (by simp)
  | .ok _, .error _ => .isFalse (by simp)
  | .error _, .ok _ => .isFalse (by simp)
  | .error x, .error y => decidable_of_iff (x = y) (by simp)

structure CallOutcome (α : Type) where
  result : Except CircuitBreakerCallError α
  breaker : CircuitBreaker
  fnInvoked : Bool
deriving DecidableEq

/-- CircuitBreaker.call at time now, with the wrapped coroutine modelled
by its outcome fnResult (Except.ok value, or Except.error for any raised
exception, a timeout included). Admission is checked first; on denial the
breaker-open rejection is raised and the function is never invoked; on
admission the function runs, then _record_success or _record_failure, the
original error being re-raised unmodified. The result is none when
_should_attempt_request crashes (OPEN with last_failure_time None). -/
def CircuitBreaker.call (now : Rat) (fnResult : Except String α)
    (cb : CircuitBreaker) : Option (CallOutcome α) :=
  match shouldAttemptRequest now cb with
  | none => none
  | some (false, cb1) => some ⟨.error .circuitOpen, cb1, false⟩
  | some (true, cb1) =>
    match fnResult with
    | .ok v => some ⟨.ok v, recordSuccess cb1, true⟩
    | .error e => some ⟨.error (.wrapped e), recordFailure now cb1, true⟩

/-- Folding _record_failure over a list of failure timestamps: the state
reached after that sequence of consecutive recorded failures. -/
def applyFailures (ts : List Rat) (cb : CircuitBreaker) : CircuitBreaker :=
  ts.foldl (fun c t => recordFailure t c) cb

/-- Iterating _record_success n times: the state reached after n
consecutive recorded successes. -/
def applySuccesses : Nat → CircuitBreaker → CircuitBreaker
  | 0, cb => cb
  | n + 1, cb => applySuccesses n (recordSuccess cb)

/-- One operation applied to a breaker: a recorded success, a recorded
failure at time t, or an admission check (_should_attempt_request) at
time t. These are the three mutators of a CircuitBreaker instance. -/
inductive BreakerOp where
  | success
  | failure (t : Rat)
  | attempt (t : Rat)
deriving DecidableEq, Repr

/-- Applying one operation; none models the TypeError crash of
_should_attempt_request on a None last_failure_time. -/
def applyBreakerOp (cb : CircuitBreaker) : BreakerOp → Option CircuitBreaker
  | .success => some (recordSuccess cb)
  | .failure t => some (recordFailure t cb)
  | .attempt t => (shouldAttemptRequest t cb).map Prod.snd

/-- Running a sequence of operations from a breaker state, in arrival
order; none as soon as one operation crashes. -/
def runBreakerOps (ops : List BreakerOp) (cb : CircuitBreaker) :
    Option CircuitBreaker :=
  match ops with
  | [] => some cb
  | op :: rest => (applyBreakerOp cb op).bind (runBreakerOps rest)

/-- A timeout event as built by HealthCheckService.record_timeout_event:
service, operation, timeout_seconds, error, timestamp. -/
structure TimeoutEvent where
  service : String
  operation : String
  timeoutSeconds : Rat
  error : String
  timestamp : Rat
deriving DecidableEq, Repr

/-- HealthCheckService.record_timeout_event acting on the
timeout_events list: append the event, then keep only the last 100
entries when the length exceeds 100 (the slice with the last 100). -/
def recordTimeoutEvent (log : List TimeoutEvent) (ev : TimeoutEvent) :
    List TimeoutEvent :=
  let log := log ++ [ev]
  if log.length > 100 then log.drop (log.length - 100) else log

/-- Recording a whole sequence of timeout events in order. -/
def recordTimeoutEvents (log : List TimeoutEvent) (evs : List TimeoutEvent) :
    List TimeoutEvent :=
  evs.foldl recordTimeoutEvent log

/-- HealthCheckService._determine_overall_status on the list of the
statuses of the per-service ServiceHealth results: counts the unhealthy
and the degraded entries; any unhealthy entry gives unhealthy, else any
degraded entry gives degraded, else healthy. -/
def determineOverallStatus (statuses : List String) : String :=
  let unhealthyCount := statuses.countP (fun s => s == "unhealthy")
  let degradedCount := statuses.countP (fun s => s == "degraded")
  if unhealthyCount > 0 then
    "unhealthy"
  else if degradedCount > 0 ∨ unhealthyCount > 0 then
    "degraded"
  else
    "healthy"

/-- The status-relevant projection of the SystemHealth snapshot built by
HealthCheckService.check_overall_health: the overall status, the
collected circuit-breaker snapshots (name paired with the state string of
get_state) and the last 10 recorded timeout events. The overall status is
computed by _determine_overall_status from the service healths alone. -/
structure SystemHealthSnapshot where
  status : String
  circuitBreakers : List (String × String)
  timeoutEvents : List TimeoutEvent
deriving DecidableEq, Repr

/-- HealthCheckService.check_overall_health, on the statuses of the
per-service health probes, the collected breaker snapshots and the
current timeout_events log: status from _determine_overall_status of the
service healths, breakers and the last 10 timeout events included as
data. -/
def checkOverallHealth (serviceStatuses : List String)
    (breakers : List (String × String)) (log : List TimeoutEvent) :
    SystemHealthSnapshot :=
  { status := determineOverallStatus serviceStatuses,
    circuitBreakers := breakers,
    timeoutEvents := log.drop (log.length - 10) }

/-- TimeoutConfig dataclass: the per-operation timeout fields and the
default. -/
structure TimeoutConfig where
  defaultTimeout : Rat
  analyzeCodeTimeout : Rat
  generateCodeTimeout : Rat
  explainCodeTimeout : Rat
  optimizeCodeTimeout : Rat
  generateTestsTimeout : Rat
  testConnectionTimeout : Rat
deriving DecidableEq, Repr

/-- An environment of configuration overrides: os.getenv modelled as a
partial map from variable name to an already-parsed positive float
value. -/
def ConfigEnv : Type := String → Option Rat

/-- TimeoutManager._load_config: each field from its environment
variable, falling back to the documented default. -/
def loadConfig (env : ConfigEnv) : TimeoutConfig :=
  { defaultTimeout := (env "OPENAI_DEFAULT_TIMEOUT").getD 30,
    analyzeCodeTimeout := (env "OPENAI_ANALYZE_CODE_TIMEOUT").getD 60,
    generateCodeTimeout := (env "OPENAI_GENERATE_CODE_TIMEOUT").getD 90,
    explainCodeTimeout := (env "OPENAI_EXPLAIN_CODE_TIMEOUT").getD 45,
    optimizeCodeTimeout := (env "OPENAI_OPTIMIZE_CODE_TIMEOUT").getD 75,
    generateTestsTimeout := (env "OPENAI_GENERATE_TESTS_TIMEOUT").getD 120,
    testConnectionTimeout := (env "OPENAI_TEST_CONNECTION_TIMEOUT").getD 10 }

/-- TimeoutManager.get_timeout: the timeout_map lookup over the six known
operations, falling back to default_timeout for any other operation. -/
def getTimeout (config : TimeoutConfig) (operation : String) : Rat :=
  let timeoutMap : List (String × Rat) :=
    [("analyze_code", config.analyzeCodeTimeout),
     ("generate_code", config.generateCodeTimeout),
     ("explain_code", config.explainCodeTimeout),
     ("optimize_code", config.optimizeCodeTimeout),
     ("generate_tests", config.generateTestsTimeout),
     ("test_connection", config.testConnectionTimeout)]
  ((timeoutMap.lookup operation).getD config.defaultTimeout)

/-- The six operation names carried by the timeout_map of get_timeout. -/
def knownTimeoutOperations : List String :=
  ["analyze_code", "generate_code", "explain_code", "optimize_code",
   "generate_tests", "test_connection"]

/-- Details dict attached to the TimeoutException raised by
TimeoutMiddleware.dispatch: timeout_limit, actual_duration, path,
method. -/
structure TimeoutDetails where
  timeoutLimit : Rat
  actualDuration : Rat
  path : String
  method : String
deriving DecidableEq, Repr

/-- An APIException as in api/middleware/exceptions.py, specialised to
timeout details: message, error_code, status_code, details. -/
structure APIError where
  message : String
  errorCode : String
  statusCode : Nat
  details : TimeoutDetails
deriving DecidableEq, Repr

/-- Constructor TimeoutException(message, details): error_code
TIMEOUT_ERROR and status_code 408 are fixed by the class. -/
def TimeoutException (message : String) (details : TimeoutDetails) : APIError :=
  { message := message, errorCode := "TIMEOUT_ERROR", statusCode := 408,
    details := details }

/-- TimeoutMiddleware configuration: default_timeout and the
route_timeouts dict keyed by METHOD:path strings. -/
structure TimeoutMiddleware where
  defaultTimeout : Rat
  routeTimeouts : List (String × Rat)
deriving DecidableEq, Repr

/-- TimeoutMiddleware._get_timeout_for_route: exact lookup of the
METHOD:path key in route_timeouts, falling back to default_timeout. -/
def getTimeoutForRoute (mw : TimeoutMiddleware) (path method : String) : Rat :=
  let routeKey := method ++ ":" ++ path
  (mw.routeTimeouts.lookup routeKey).getD mw.defaultTimeout

/-- The downstream handler of one request, modelled by the wall-clock
duration it would take to produce its response and that response. -/
structure Handler (Response : Type) where
  duration : Rat
  response : Response

/-- Outcome of TimeoutMiddleware.dispatch: the response or the raised
TimeoutException, and the wall-clock time the caller waited. asyncio
wait_for returns the handler result when it completes within the
timeout, and otherwise raises asyncio.TimeoutError at the timeout, so the
caller waits min(duration, timeout). -/
structure DispatchOutcome (Response : Type) where
  result : Except APIError Response
  callerWait : Rat

/-- TimeoutMiddleware.dispatch on one request: resolve the timeout for
(method, path), run the handler under asyncio.wait_for with that
timeout; on overrun raise TimeoutException whose details carry
timeout_limit (the resolved timeout), actual_duration (the elapsed time
when the wait times out, the resolved timeout itself), path and method. -/
def dispatch {Response : Type} (mw : TimeoutMiddleware) (path method : String)
    (handler : Handler Response) : DispatchOutcome Response :=
  let timeoutSeconds := getTimeoutForRoute mw path method
  if handler.duration ≤ timeoutSeconds then
    { result := .ok handler.response, callerWait := handler.duration }
  else
    { result := .error (TimeoutException
        "Request timed out"
        { timeoutLimit := timeoutSeconds, actualDuration := timeoutSeconds,
          path := path, method := method }),
      callerWait := timeoutSeconds }

/-!
Helper lemmas: closed-form characterizations of the record operations,
used throughout the proofs below.
-/

/-- Closed form of _record_failure: the counter increments, the failure
time is stamped, success_count drops to 0, and the state trips to OPEN
exactly when HALF_OPEN, or CLOSED with the new counter at the
threshold. -/
theorem recordFailure_eq (now : Rat) (cb : CircuitBreaker) :
    recordFailure now cb =
      { config := cb.config,
        state :=
          if cb.state = .halfOpen ∨
             (cb.state = .closed ∧
               cb.config.failureThreshold ≤ cb.failureCount + 1) then
            .open
          else cb.state,
        failureCount := cb.failureCount + 1,
        successCount := 0,
        lastFailureTime := some now } := by
  rcases cb with ⟨cfg, st, fc, sc, lft⟩
  cases st <;> simp only [recordFailure] <;> split_ifs <;> simp_all <;> omega

/-- The fields of _record_failure other than the state, in closed form. -/
theorem recordFailure_fields (now : Rat) (cb : CircuitBreaker) :
    (recordFailure now cb).config = cb.config ∧
    (recordFailure now cb).failureCount = cb.failureCount + 1 ∧
    (recordFailure now cb).successCount = 0 ∧
    (recordFailure now cb).lastFailureTime = some now := by
  rw [recordFailure_eq]
  exact ⟨rfl, rfl, rfl, rfl⟩

/-- A failure recorded while CLOSED with the new counter still below the
threshold leaves the breaker CLOSED. -/
theorem recordFailure_state_closed (now : Rat) (cb : CircuitBreaker)
    (hs : cb.state = .closed)
    (h : cb.failureCount + 1 < cb.config.failureThreshold) :
    (recordFailure now cb).state = .closed := by
  simp only [recordFailure_eq]
  rw [if_neg, hs]
  rintro (h1 | h2)
  · rw [hs] at h1
    simp at h1
  · exact absurd h2.2 (by omega)

/-- A failure recorded while CLOSED with the new counter at the threshold
trips the breaker to OPEN. -/
theorem recordFailure_state_open_of_threshold (now : Rat)
    (cb : CircuitBreaker) (hs : cb.state = .closed)
    (h : cb.config.failureThreshold ≤ cb.failureCount + 1) :
    (recordFailure now cb).state = .open := by
  simp only [recordFailure_eq]
  rw [if_pos (Or.inr ⟨hs, h⟩)]

/-- A failure recorded while HALF_OPEN trips the breaker to OPEN at
once. -/
theorem recordFailure_state_open_of_halfOpen (now : Rat)
    (cb : CircuitBreaker) (hs : cb.state = .halfOpen) :
    (recordFailure now cb).state = .open := by
  simp only [recordFailure_eq]
  rw [if_pos (Or.inl hs)]

/-- Closed form of _record_success: failure_count drops to 0; in
HALF_OPEN the success counter increments and the state closes once it
reaches the threshold; in any other state nothing else changes. -/
theorem recordSuccess_eq (cb : CircuitBreaker) :
    recordSuccess cb =
      if cb.state = .halfOpen then
        { config := cb.config,
          state :=
            if cb.config.successThreshold ≤ cb.successCount + 1 then .closed
            else .halfOpen,
          failureCount := 0,
          successCount := cb.successCount + 1,
          lastFailureTime := cb.lastFailureTime }
      else
        { cb with failureCount := 0 } := by
  rcases cb with ⟨cfg, st, fc, sc, lft⟩
  simp only [recordSuccess]
  split_ifs <;> simp_all

/-- Folding failures never changes the configuration. -/
theorem applyFailures_config (ts : List Rat) :
    ∀ cb : CircuitBreaker, (applyFailures ts cb).config = cb.config := by
  induction ts with
  | nil => intro cb; rfl
  | cons t tl ih =>
    intro cb
    show (applyFailures tl (recordFailure t cb)).config = cb.config
    rw [ih, (recordFailure_fields t cb).1]

/-- Each recorded failure increments failure_count by exactly 1, so a run
of consecutive failures adds its length to the counter. -/
theorem applyFailures_failureCount (ts : List Rat) :
    ∀ cb : CircuitBreaker,
      (applyFailures ts cb).failureCount = cb.failureCount + ts.length := by
  induction ts with
  | nil => intro cb; rfl
  | cons t tl ih =>
    intro cb
    show (applyFailures tl (recordFailure t cb)).failureCount = _
    rw [ih, (recordFailure_fields t cb).2.1]
    simp only [List.length_cons]
    omega

/-- While the counter stays strictly below the threshold, a run of
failures leaves a CLOSED breaker CLOSED. -/
theorem applyFailures_state_closed (ts : List Rat) :
    ∀ cb : CircuitBreaker, cb.state = .closed →
      cb.failureCount + ts.length < cb.config.failureThreshold →
      (applyFailures ts cb).state = .closed := by
  induction ts with
  | nil => intro cb hs _; exact hs
  | cons t tl ih =>
    intro cb hs hlt
    simp only [List.length_cons] at hlt
    show (applyFailures tl (recordFailure t cb)).state = .closed
    apply ih
    · exact recordFailure_state_closed t cb hs (by omega)
    · rw [(recordFailure_fields t cb).1, (recordFailure_fields t cb).2.1]
      omega

/-- A nonempty run of failures that brings the counter exactly to the
threshold trips a CLOSED breaker to OPEN. -/
theorem applyFailures_state_open (ts : List Rat) :
    ∀ cb : CircuitBreaker, cb.state = .closed →
      cb.failureCount + ts.length = cb.config.failureThreshold → ts ≠ [] →
      (applyFailures ts cb).state = .open := by
  induction ts with
  | nil => intro cb _ _ hne; exact absurd rfl hne
  | cons t tl ih =>
    intro cb hs heq _
    simp only [List.length_cons] at heq
    show (applyFailures tl (recordFailure t cb)).state = .open
    cases tl with
    | nil =>
      show (recordFailure t cb).state = .open
      exact recordFailure_state_open_of_threshold t cb hs (by simp at heq; omega)
    | cons t2 tl2 =>
      apply ih
      · exact recordFailure_state_closed t cb hs (by simp at heq ⊢; omega)
      · rw [(recordFailure_fields t cb).1, (recordFailure_fields t cb).2.1]
        omega
      · simp

/-- C1 (amended): for every configuration with failure_threshold at least
1, from CLOSED with failure_count 0, a run of exactly failure_threshold
consecutive recorded failures (at arbitrary timestamps) trips the breaker
to OPEN with the counter equal to the threshold, any strictly shorter run
leaves it CLOSED with the counter equal to the run length, and every
failed call while CLOSED, whatever the raised error (exception or
timeout), performs exactly one _record_failure, which increments the
shared counter by exactly 1. -/
theorem circuitBreaker_opens_at_failure_threshold
    (cb : CircuitBreaker) (ts : List Rat)
    (hs : cb.state = .closed) (hc : cb.failureCount = 0)
    (hth : 1 ≤ cb.config.failureThreshold) :
    (ts.length = cb.config.failureThreshold →
      (applyFailures ts cb).state = .open ∧
      (applyFailures ts cb).failureCount = cb.config.failureThreshold) ∧
    (ts.length < cb.config.failureThreshold →
      (applyFailures ts cb).state = .closed ∧
      (applyFailures ts cb).failureCount = ts.length) ∧
    (∀ (e : String) (now : Rat) (cbA : CircuitBreaker), cbA.state = .closed →
      CircuitBreaker.call now (Except.error e : Except String Unit) cbA =
        some ⟨.error (.wrapped e), recordFailure now cbA, true⟩ ∧
      (recordFailure now cbA).failureCount = cbA.failureCount + 1) := by
  refine ⟨fun hlen => ⟨?_, ?_⟩, fun hlen => ⟨?_, ?_⟩, ?_⟩
  · apply applyFailures_state_open ts cb hs (by omega)
    intro hnil
    rw [hnil] at hlen
    simp at hlen
    omega
  · rw [applyFailures_failureCount, hc, hlen]
    omega
  · exact applyFailures_state_closed ts cb hs (by omega)
  · rw [applyFailures_failureCount, hc]
    omega
  · intro e now cbA hsA
    constructor
    · simp only [CircuitBreaker.call, shouldAttemptRequest, hsA]
    · rw [recordFailure_eq]

/-- Witness for C1 at the default configuration (failure_threshold 5):
five consecutive failures from the initial state open the breaker and
three leave it closed with counter 3. -/
theorem circuitBreaker_opens_at_failure_threshold_witness :
    (applyFailures [0, 1, 2, 3, 4]
      (CircuitBreaker.init defaultCircuitBreakerConfig)).state = .open ∧
    (applyFailures [0, 1, 2]
      (CircuitBreaker.init defaultCircuitBreakerConfig)).state = .closed ∧
    (applyFailures [0, 1, 2]
      (CircuitBreaker.init defaultCircuitBreakerConfig)).failureCount = 3 := by
  refine ⟨?_, ?_, ?_⟩
  · exact ((circuitBreaker_opens_at_failure_threshold
      (CircuitBreaker.init defaultCircuitBreakerConfig) [0, 1, 2, 3, 4]
      rfl rfl (by decide)).1 (by decide)).1
  · exact ((circuitBreaker_opens_at_failure_threshold
      (CircuitBreaker.init defaultCircuitBreakerConfig) [0, 1, 2]
      rfl rfl (by decide)).2.1 (by decide)).1
  · exact ((circuitBreaker_opens_at_failure_threshold
      (CircuitBreaker.init defaultCircuitBreakerConfig) [0, 1, 2]
      rfl rfl (by decide)).2.1 (by decide)).2

/-- Counterexample to C1 as stated: with failure_threshold 0 (a
constructible configuration), after exactly failure_threshold = 0
consecutive failures from the initial state the breaker is still CLOSED,
not OPEN. -/
theorem circuitBreaker_threshold_zero_counterexample :
    (applyFailures []
      (CircuitBreaker.init
        { failureThreshold := 0, recoveryTimeout := 60,
          successThreshold := 3, timeout := 30 })).state = .closed ∧
    (applyFailures []
      (CircuitBreaker.init
        { failureThreshold := 0, recoveryTimeout := 60,
          successThreshold := 3, timeout := 30 })).state ≠ .open := by
  decide

/-- Unfolding applySuccesses one step. -/
theorem applySuccesses_succ (n : Nat) (cb : CircuitBreaker) :
    applySuccesses (n + 1) cb = applySuccesses n (recordSuccess cb) := rfl

/-- While the success counter stays strictly below the threshold, a run
of successes keeps a HALF_OPEN breaker half-open, incrementing the
counter each time. -/
theorem applySuccesses_halfOpen (n : Nat) :
    ∀ cb : CircuitBreaker, cb.state = .halfOpen →
      cb.successCount + n < cb.config.successThreshold →
      (applySuccesses n cb).state = .halfOpen ∧
      (applySuccesses n cb).successCount = cb.successCount + n ∧
      (applySuccesses n cb).config = cb.config := by
  induction n with
  | zero => intro cb hs _; exact ⟨hs, rfl, rfl⟩
  | succ m ih =>
    intro cb hs hlt
    have hrs : recordSuccess cb =
        { config := cb.config, state := .halfOpen, failureCount := 0,
          successCount := cb.successCount + 1,
          lastFailureTime := cb.lastFailureTime } := by
      rw [recordSuccess_eq, if_pos hs, if_neg (by omega)]
    rw [applySuccesses_succ, hrs]
    obtain ⟨a, b, c⟩ := ih
      { config := cb.config, state := .halfOpen, failureCount := 0,
        successCount := cb.successCount + 1,
        lastFailureTime := cb.lastFailureTime }
      rfl
      (by show cb.successCount + 1 + m < cb.config.successThreshold; omega)
    refine ⟨a, ?_, c⟩
    rw [b]
    show cb.successCount + 1 + m = cb.successCount + (m + 1)
    omega

/-- A nonempty run of successes that brings the success counter exactly
to the threshold closes a HALF_OPEN breaker, resets failure_count to 0
and leaves success_count at the threshold value (not 0). -/
theorem applySuccesses_close (n : Nat) :
    ∀ cb : CircuitBreaker, cb.state = .halfOpen →
      cb.successCount + n = cb.config.successThreshold → n ≠ 0 →
      (applySuccesses n cb).state = .closed ∧
      (applySuccesses n cb).failureCount = 0 ∧
      (applySuccesses n cb).successCount = cb.config.successThreshold := by
  induction n with
  | zero => intro cb _ _ hne; exact absurd rfl hne
  | succ m ih =>
    intro cb hs heq _
    cases m with
    | zero =>
      have hrs : recordSuccess cb =
          { config := cb.config, state := .closed, failureCount := 0,
            successCount := cb.successCount + 1,
            lastFailureTime := cb.lastFailureTime } := by
        rw [recordSuccess_eq, if_pos hs]
        rw [if_pos (by omega)]
      rw [applySuccesses_succ, hrs]
      refine ⟨rfl, rfl, ?_⟩
      show cb.successCount + 1 = cb.config.successThreshold
      omega
    | succ k =>
      have hrs : recordSuccess cb =
          { config := cb.config, state := .halfOpen, failureCount := 0,
            successCount := cb.successCount + 1,
            lastFailureTime := cb.lastFailureTime } := by
        rw [recordSuccess_eq, if_pos hs, if_neg (by omega)]
      rw [applySuccesses_succ, hrs]
      apply ih
      · rfl
      · show cb.successCount + 1 + (k + 1) = cb.config.successThreshold
        omega
      · simp

/-- Successes recorded while CLOSED keep the breaker CLOSED, and any
nonempty run of them leaves failure_count at 0 (each _record_success
zeroes it). -/
theorem applySuccesses_closed (n : Nat) :
    ∀ cb : CircuitBreaker, cb.state = .closed →
      (applySuccesses n cb).state = .closed ∧
      (n ≠ 0 → (applySuccesses n cb).failureCount = 0) := by
  induction n with
  | zero => intro cb hs; exact ⟨hs, fun hn => absurd rfl hn⟩
  | succ m ih =>
    intro cb hs
    have hrs : recordSuccess cb = { cb with failureCount := 0 } := by
      rw [recordSuccess_eq, if_neg (by rw [hs]; simp)]
    rw [applySuccesses_succ, hrs]
    obtain ⟨a, b⟩ := ih { cb with failureCount := 0 } hs
    refine ⟨a, fun _ => ?_⟩
    rcases Nat.eq_zero_or_pos m with hm | hm
    · subst hm; rfl
    · exact b (by omega)

/-- From HALF_OPEN with any current success_count, a nonempty run of
successes long enough for the counter to reach the threshold ends CLOSED
with failure_count 0 (the breaker closes as soon as the counter reaches
the threshold and further successes keep it closed). -/
theorem applySuccesses_reaches_closed (n : Nat) :
    ∀ cb : CircuitBreaker, cb.state = .halfOpen →
      cb.config.successThreshold ≤ cb.successCount + n → n ≠ 0 →
      (applySuccesses n cb).state = .closed ∧
      (applySuccesses n cb).failureCount = 0 := by
  induction n with
  | zero => intro cb _ _ hne; exact absurd rfl hne
  | succ m ih =>
    intro cb hs hth _
    by_cases hc : cb.config.successThreshold ≤ cb.successCount + 1
    · have hrs : recordSuccess cb =
          { config := cb.config, state := .closed, failureCount := 0,
            successCount := cb.successCount + 1,
            lastFailureTime := cb.lastFailureTime } := by
        rw [recordSuccess_eq, if_pos hs, if_pos hc]
      rw [applySuccesses_succ, hrs]
      obtain ⟨a, b⟩ := applySuccesses_closed m
        { config := cb.config, state := .closed, failureCount := 0,
          successCount := cb.successCount + 1,
          lastFailureTime := cb.lastFailureTime } rfl
      refine ⟨a, ?_⟩
      rcases Nat.eq_zero_or_pos m with hm | hm
      · subst hm; rfl
      · exact b (by omega)
    · have hrs : recordSuccess cb =
          { config := cb.config, state := .halfOpen, failureCount := 0,
            successCount := cb.successCount + 1,
            lastFailureTime := cb.lastFailureTime } := by
        rw [recordSuccess_eq, if_pos hs, if_neg hc]
      rw [applySuccesses_succ, hrs]
      apply ih
      · rfl
      · show cb.config.successThreshold ≤ cb.successCount + 1 + m
        omega
      · omega

/-- C4 (amended): for every breaker in HALF_OPEN whose success_threshold
is at least 1, whatever its current success_count, recording
success_threshold consecutive successes transitions the state to CLOSED
and resets failure_count to 0; and from any HALF_OPEN breaker a single
recorded failure (no threshold) immediately transitions the state to
OPEN and resets success_count to 0. -/
theorem halfOpen_close_and_reopen
    (cb cbF : CircuitBreaker) (now : Rat)
    (hs : cb.state = .halfOpen)
    (hth : 1 ≤ cb.config.successThreshold)
    (hsF : cbF.state = .halfOpen) :
    ((applySuccesses cb.config.successThreshold cb).state = .closed ∧
     (applySuccesses cb.config.successThreshold cb).failureCount = 0) ∧
    ((recordFailure now cbF).state = .open ∧
     (recordFailure now cbF).successCount = 0) := by
  obtain ⟨a, b⟩ := applySuccesses_reaches_closed
    cb.config.successThreshold cb hs (by omega) (by omega)
  exact ⟨⟨a, b⟩,
    recordFailure_state_open_of_halfOpen now cbF hsF,
    (recordFailure_fields now cbF).2.2.1⟩

/-- Witness for C4 at the default configuration (success_threshold 3):
three successes close a half-open breaker that already counts one
success (a mid-probe state) and reset its failure counter; one failure
from half-open reopens it with success_count 0. -/
theorem halfOpen_close_and_reopen_witness :
    ((applySuccesses 3
      { config := defaultCircuitBreakerConfig, state := .halfOpen,
        failureCount := 2, successCount := 1,
        lastFailureTime := some 0 }).state = .closed ∧
     (applySuccesses 3
      { config := defaultCircuitBreakerConfig, state := .halfOpen,
        failureCount := 2, successCount := 1,
        lastFailureTime := some 0 }).failureCount = 0) ∧
    ((recordFailure 5
      { config := defaultCircuitBreakerConfig, state := .halfOpen,
        failureCount := 2, successCount := 1,
        lastFailureTime := some 0 }).state = .open ∧
     (recordFailure 5
      { config := defaultCircuitBreakerConfig, state := .halfOpen,
        failureCount := 2, successCount := 1,
        lastFailureTime := some 0 }).successCount = 0) :=
  halfOpen_close_and_reopen
    { config := defaultCircuitBreakerConfig, state := .halfOpen,
      failureCount := 2, successCount := 1, lastFailureTime := some 0 }
    { config := defaultCircuitBreakerConfig, state := .halfOpen,
      failureCount := 2, successCount := 1, lastFailureTime := some 0 }
    5 rfl (by decide) rfl

/-- Counterexample to C4 as stated: with success_threshold 0 (a
constructible configuration) the breaker reaches HALF_OPEN, and after
exactly success_threshold = 0 recorded successes its state is still
HALF_OPEN, not CLOSED. -/
theorem halfOpen_zero_threshold_counterexample :
    (runBreakerOps [.failure 0, .attempt 100]
      (CircuitBreaker.init
        { failureThreshold := 1, recoveryTimeout := 60,
          successThreshold := 0, timeout := 30 })).map
      (fun cb => ((applySuccesses cb.config.successThreshold cb).state,
                  cb.state)) =
      some (.halfOpen, .halfOpen) := by
  have h60 : (60:Rat) ≤ 100 := by norm_num
  simp [runBreakerOps, applyBreakerOp, shouldAttemptRequest, recordFailure,
    recordSuccess, applySuccesses, CircuitBreaker.init, h60]

/-- _should_attempt_request admits and changes nothing while CLOSED. -/
theorem shouldAttemptRequest_closed (now : Rat) (cb : CircuitBreaker)
    (hs : cb.state = .closed) :
    shouldAttemptRequest now cb = some (true, cb) := by
  simp only [shouldAttemptRequest, hs]

/-- _should_attempt_request admits and changes nothing while
HALF_OPEN. -/
theorem shouldAttemptRequest_halfOpen (now : Rat) (cb : CircuitBreaker)
    (hs : cb.state = .halfOpen) :
    shouldAttemptRequest now cb = some (true, cb) := by
  simp only [shouldAttemptRequest, hs]

/-- While OPEN with the recovery timeout not yet elapsed,
_should_attempt_request denies admission and changes nothing. -/
theorem shouldAttemptRequest_open_denied (now : Rat) (cb : CircuitBreaker)
    (t : Rat) (hs : cb.state = .open) (hl : cb.lastFailureTime = some t)
    (hrt : now - t < cb.config.recoveryTimeout) :
    shouldAttemptRequest now cb = some (false, cb) := by
  simp only [shouldAttemptRequest, hs, hl]
  rw [if_neg (not_le.mpr hrt)]

/-- While OPEN with the recovery timeout elapsed,
_should_attempt_request moves the breaker to HALF_OPEN, resets
success_count to 0 and admits the request. -/
theorem shouldAttemptRequest_open_recovered (now : Rat)
    (cb : CircuitBreaker) (t : Rat) (hs : cb.state = .open)
    (hl : cb.lastFailureTime = some t)
    (hrt : cb.config.recoveryTimeout ≤ now - t) :
    shouldAttemptRequest now cb =
      some (true, { cb with state := .halfOpen, successCount := 0 }) := by
  simp only [shouldAttemptRequest, hs, hl]
  rw [if_pos hrt]

/-- C2 (confirmed): while OPEN with the recovery timeout not yet elapsed,
call rejects immediately with the breaker-open error, whatever the
wrapped function would have returned: the function is never invoked
(fnInvoked false) and the breaker, its state, failure_count,
success_count and last_failure_time included, is returned unchanged. -/
theorem open_call_rejected {α : Type} (cb : CircuitBreaker)
    (t now : Rat) (fnResult : Except String α)
    (hs : cb.state = .open) (hl : cb.lastFailureTime = some t)
    (hrt : now - t < cb.config.recoveryTimeout) :
    CircuitBreaker.call now fnResult cb =
      some { result := .error .circuitOpen, breaker := cb,
             fnInvoked := false } := by
  have h := shouldAttemptRequest_open_denied now cb t hs hl hrt
  simp only [CircuitBreaker.call, h]

/-- Witness for C2: an OPEN breaker with last failure at time 0 rejects a
call at time 10 (recovery timeout 60), unchanged, without running the
wrapped function. -/
theorem open_call_rejected_witness :
    CircuitBreaker.call 10 (Except.ok 42 : Except String Nat)
      { config := defaultCircuitBreakerConfig, state := .open,
        failureCount := 5, successCount := 0, lastFailureTime := some 0 } =
      some { result := .error .circuitOpen,
             breaker :=
               { config := defaultCircuitBreakerConfig, state := .open,
                 failureCount := 5, successCount := 0,
                 lastFailureTime := some 0 },
             fnInvoked := false } :=
  open_call_rejected
    { config := defaultCircuitBreakerConfig, state := .open,
      failureCount := 5, successCount := 0, lastFailureTime := some 0 }
    0 10 (Except.ok 42) rfl rfl (by norm_num [defaultCircuitBreakerConfig])

/-- C3 (confirmed): the OPEN to HALF_OPEN transition is evaluated lazily
inside the next call: once the recovery timeout has elapsed,
_should_attempt_request moves the breaker to HALF_OPEN with
success_count reset to 0, and the call then invokes the wrapped function
(fnInvoked true) with the bookkeeping applied to that HALF_OPEN breaker.
No operation other than these mutates a breaker, so no state change
occurs while no call arrives, however much time elapses. -/
theorem open_to_halfOpen_lazy {α : Type} (cb : CircuitBreaker)
    (t now : Rat) (hs : cb.state = .open)
    (hl : cb.lastFailureTime = some t)
    (hrt : cb.config.recoveryTimeout ≤ now - t) :
    shouldAttemptRequest now cb =
      some (true, { cb with state := .halfOpen, successCount := 0 }) ∧
    (∀ v : α, CircuitBreaker.call now (Except.ok v) cb =
      some { result := .ok v,
             breaker :=
               recordSuccess { cb with state := .halfOpen, successCount := 0 },
             fnInvoked := true }) ∧
    (∀ e : String,
      CircuitBreaker.call now (Except.error e : Except String α) cb =
      some { result := .error (.wrapped e),
             breaker :=
               recordFailure now
                 { cb with state := .halfOpen, successCount := 0 },
             fnInvoked := true }) := by
  have h := shouldAttemptRequest_open_recovered now cb t hs hl hrt
  exact ⟨h, fun v => by simp only [CircuitBreaker.call, h],
    fun e => by simp only [CircuitBreaker.call, h]⟩

/-- Witness for C3: an OPEN breaker with last failure at time 0, called
at time 100 (recovery timeout 60), moves to HALF_OPEN with
success_count 0 and the wrapped function is invoked, for a succeeding
and for a failing function alike. -/
theorem open_to_halfOpen_lazy_witness :
    shouldAttemptRequest 100
      { config := defaultCircuitBreakerConfig, state := .open,
        failureCount := 5, successCount := 0, lastFailureTime := some 0 } =
      some (true,
        { config := defaultCircuitBreakerConfig, state := .halfOpen,
          failureCount := 5, successCount := 0,
          lastFailureTime := some 0 }) ∧
    CircuitBreaker.call 100 (Except.ok 7 : Except String Nat)
      { config := defaultCircuitBreakerConfig, state := .open,
        failureCount := 5, successCount := 0, lastFailureTime := some 0 } =
      some { result := .ok 7,
             breaker := recordSuccess
               { config := defaultCircuitBreakerConfig, state := .halfOpen,
                 failureCount := 5, successCount := 0,
                 lastFailureTime := some 0 },
             fnInvoked := true } ∧
    CircuitBreaker.call 100 (Except.error "boom" : Except String Nat)
      { config := defaultCircuitBreakerConfig, state := .open,
        failureCount := 5, successCount := 0, lastFailureTime := some 0 } =
      some { result := .error (.wrapped "boom"),
             breaker := recordFailure 100
               { config := defaultCircuitBreakerConfig, state := .halfOpen,
                 failureCount := 5, successCount := 0,
                 lastFailureTime := some 0 },
             fnInvoked := true } := by
  have h := open_to_halfOpen_lazy (α := Nat)
    { config := defaultCircuitBreakerConfig, state := .open,
      failureCount := 5, successCount := 0, lastFailureTime := some 0 }
    0 100 rfl rfl (by norm_num [defaultCircuitBreakerConfig])
  exact ⟨h.1, h.2.1 7, h.2.2 "boom"⟩

/-- C6 (amended): success_count is reset to 0 by every _record_failure,
so in particular on the HALF_OPEN to OPEN exit, and by the OPEN to
HALF_OPEN entry performed by _should_attempt_request; but the HALF_OPEN
to CLOSED exit taken by _record_success when the counter reaches
success_threshold does not reset it: the now-CLOSED breaker retains
success_count equal to the previous count plus 1 (the threshold, when
counting from 0), the stale value being cleared only on the next entry
to HALF_OPEN. -/
theorem successCount_reset_on_exits
    (cb cbO cbH : CircuitBreaker) (now t : Rat)
    (hs : cb.state = .halfOpen)
    (hsO : cbO.state = .open) (hlO : cbO.lastFailureTime = some t)
    (hrt : cbO.config.recoveryTimeout ≤ now - t)
    (hsH : cbH.state = .halfOpen)
    (hth : cbH.config.successThreshold ≤ cbH.successCount + 1) :
    ((recordFailure now cb).state = .open ∧
     (recordFailure now cb).successCount = 0) ∧
    (shouldAttemptRequest now cbO =
      some (true, { cbO with state := .halfOpen, successCount := 0 })) ∧
    ((recordSuccess cbH).state = .closed ∧
     (recordSuccess cbH).successCount = cbH.successCount + 1) := by
  refine ⟨⟨recordFailure_state_open_of_halfOpen now cb hs,
    (recordFailure_fields now cb).2.2.1⟩,
    shouldAttemptRequest_open_recovered now cbO t hsO hlO hrt, ?_, ?_⟩
  · rw [recordSuccess_eq, if_pos hsH]
    show (if cbH.config.successThreshold ≤ cbH.successCount + 1 then
      CircuitBreakerState.closed else .halfOpen) = .closed
    rw [if_pos hth]
  · rw [recordSuccess_eq, if_pos hsH]

/-- Witness for C6 at concrete half-open and open breakers under the
default configuration. -/
theorem successCount_reset_on_exits_witness :
    ((recordFailure 10
      { config := defaultCircuitBreakerConfig, state := .halfOpen,
        failureCount := 0, successCount := 2,
        lastFailureTime := some 0 }).state = .open ∧
     (recordFailure 10
      { config := defaultCircuitBreakerConfig, state := .halfOpen,
        failureCount := 0, successCount := 2,
        lastFailureTime := some 0 }).successCount = 0) ∧
    (shouldAttemptRequest 10
      { config := defaultCircuitBreakerConfig, state := .open,
        failureCount := 5, successCount := 0,
        lastFailureTime := some (-60) } =
      some (true,
        { config := defaultCircuitBreakerConfig, state := .halfOpen,
          failureCount := 5, successCount := 0,
          lastFailureTime := some (-60) })) ∧
    ((recordSuccess
      { config := defaultCircuitBreakerConfig, state := .halfOpen,
        failureCount := 0, successCount := 2,
        lastFailureTime := some 0 }).state = .closed ∧
     (recordSuccess
      { config := defaultCircuitBreakerConfig, state := .halfOpen,
        failureCount := 0, successCount := 2,
        lastFailureTime := some 0 }).successCount = 3) :=
  successCount_reset_on_exits
    { config := defaultCircuitBreakerConfig, state := .halfOpen,
      failureCount := 0, successCount := 2, lastFailureTime := some 0 }
    { config := defaultCircuitBreakerConfig, state := .open,
      failureCount := 5, successCount := 0, lastFailureTime := some (-60) }
    { config := defaultCircuitBreakerConfig, state := .halfOpen,
      failureCount := 0, successCount := 2, lastFailureTime := some 0 }
    10 (-60) rfl rfl rfl (by norm_num [defaultCircuitBreakerConfig]) rfl
    (by decide)

/-- Counterexample to C6 as stated: from the initial breaker under the
default configuration (success_threshold 3), five failures, one admitted
probe after the recovery timeout and three successes leave the breaker
CLOSED with success_count 3, not 0: the HALF_OPEN to CLOSED transition
did not reset the counter. -/
theorem successCount_not_reset_on_close_counterexample :
    (runBreakerOps
      [.failure 0, .failure 0, .failure 0, .failure 0, .failure 0,
       .attempt 100, .success, .success, .success]
      (CircuitBreaker.init defaultCircuitBreakerConfig)).map
      (fun cb => (cb.state, cb.successCount)) =
      some (.closed, 3) ∧
    (runBreakerOps
      [.failure 0, .failure 0, .failure 0, .failure 0, .failure 0,
       .attempt 100, .success, .success, .success]
      (CircuitBreaker.init defaultCircuitBreakerConfig)).map
      (fun cb => cb.successCount) ≠ some 0 := by
  have h60 : (60:Rat) ≤ 100 := by norm_num
  constructor
  · simp [runBreakerOps, applyBreakerOp, shouldAttemptRequest, recordFailure,
      recordSuccess, CircuitBreaker.init, defaultCircuitBreakerConfig, h60]
  · simp [runBreakerOps, applyBreakerOp, shouldAttemptRequest, recordFailure,
      recordSuccess, CircuitBreaker.init, defaultCircuitBreakerConfig, h60]

/-!
Timeout-event log: boundedness and the last-100 suffix property.
-/

/-- Closed form of recording a run of events onto a log of at most 100
entries: the result is the suffix of log ++ run that keeps the most
recent 100 entries (everything, when fewer). -/
theorem recordTimeoutEvents_eq (evs : List TimeoutEvent) :
    ∀ log : List TimeoutEvent, log.length ≤ 100 →
      recordTimeoutEvents log evs =
        (log ++ evs).drop (log.length + evs.length - 100) := by
  induction evs with
  | nil =>
    intro log h
    simp [recordTimeoutEvents, Nat.sub_eq_zero_of_le h]
  | cons e tl ih =>
    intro log h
    show recordTimeoutEvents (recordTimeoutEvent log e) tl = _
    by_cases hlt : log.length < 100
    · have h1 : recordTimeoutEvent log e = log ++ [e] := by
        simp only [recordTimeoutEvent]
        rw [if_neg (by simp; omega)]
      rw [h1, ih (log ++ [e]) (by simp; omega)]
      have hlist : (log ++ [e]) ++ tl = log ++ e :: tl := by simp
      have hidx : (log ++ [e]).length + tl.length - 100 =
          log.length + (e :: tl).length - 100 := by
        simp only [List.length_append, List.length_singleton,
          List.length_cons, List.length_nil]
        omega
      rw [hlist, hidx]
    · have h100 : log.length = 100 := by omega
      have h1 : recordTimeoutEvent log e = (log ++ [e]).drop 1 := by
        simp only [recordTimeoutEvent]
        rw [if_pos (by simp; omega)]
        congr 1
        simp only [List.length_append, List.length_singleton]
        omega
      have hdl : ((log ++ [e]).drop 1).length = 100 := by
        rw [List.length_drop]
        simp only [List.length_append, List.length_singleton]
        omega
      rw [h1, ih ((log ++ [e]).drop 1) (by rw [hdl]), hdl,
        Nat.add_sub_cancel_left]
      have h2 : log ++ e :: tl = (log ++ [e]) ++ tl := by simp
      rw [h2]
      have h4 : log.length + (e :: tl).length - 100 = 1 + tl.length := by
        simp only [List.length_cons]
        omega
      rw [h4, ← List.drop_drop,
        @List.drop_append_of_le_length _ (log ++ [e]) tl 1 (by simp)]

/-- C7 (confirmed): the timeout-event log is bounded by capacity 100 and
keeps exactly the most recent entries in append order: starting from the
empty log, recording any run of events leaves the suffix of the run of
length min(run, 100); in particular any 150 recorded events leave
exactly the most recent 100, in order; and from any log within capacity
the capacity is never exceeded. record_timeout_event is a total function
of its arguments (arbitrary strings and rationals), so it never
raises. -/
theorem timeoutEventLog_bounded (evs : List TimeoutEvent) :
    recordTimeoutEvents [] evs = evs.drop (evs.length - 100) ∧
    (recordTimeoutEvents [] evs).length = min evs.length 100 ∧
    (evs.length = 150 →
      recordTimeoutEvents [] evs = evs.drop 50 ∧
      (recordTimeoutEvents [] evs).length = 100) ∧
    ∀ log : List TimeoutEvent, log.length ≤ 100 →
      (recordTimeoutEvents log evs).length ≤ 100 := by
  have hbase := recordTimeoutEvents_eq evs [] (by simp)
  simp only [List.nil_append, List.length_nil, Nat.zero_add] at hbase
  refine ⟨hbase, ?_, fun h150 => ⟨?_, ?_⟩, ?_⟩
  · rw [hbase, List.length_drop]
    omega
  · rw [hbase, h150]
  · rw [hbase, List.length_drop, h150]
  · intro log hlog
    rw [recordTimeoutEvents_eq evs log hlog, List.length_drop,
      List.length_append]
    omega

/-- Witness for C7: recording 150 copies of a concrete event from the
empty log leaves exactly the last 100 of them, a log of length 100. -/
theorem timeoutEventLog_bounded_witness :
    recordTimeoutEvents []
      (List.replicate 150
        { service := "openai", operation := "circuit_breaker_call",
          timeoutSeconds := 30, error := "timeout", timestamp := 0 }) =
      (List.replicate 150
        { service := "openai", operation := "circuit_breaker_call",
          timeoutSeconds := 30, error := "timeout",
          timestamp := 0 }).drop 50 ∧
    (recordTimeoutEvents []
      (List.replicate 150
        { service := "openai", operation := "circuit_breaker_call",
          timeoutSeconds := 30, error := "timeout",
          timestamp := 0 })).length = 100 :=
  (timeoutEventLog_bounded
    (List.replicate 150
      { service := "openai", operation := "circuit_breaker_call",
        timeoutSeconds := 30, error := "timeout",
        timestamp := 0 })).2.2.1 (by simp)

/-!
Overall health status derivation.
-/

/-- A positive count of entries equal to x is the same as membership of
x (the counts in _determine_overall_status are sums of 1 over matching
statuses). -/
theorem countP_eq_pos_iff_mem (l : List String) (x : String) :
    0 < l.countP (fun s => s == x) ↔ x ∈ l := by
  rw [List.countP_pos_iff]
  constructor
  · rintro ⟨a, ha, hb⟩
    rw [beq_iff_eq] at hb
    rwa [hb] at ha
  · intro h
    exact ⟨x, h, by simp⟩

/-- Closed form of _determine_overall_status: unhealthy when some status
is unhealthy, else degraded when some status is degraded, else
healthy. -/
theorem determineOverallStatus_eq (statuses : List String) :
    determineOverallStatus statuses =
      if "unhealthy" ∈ statuses then "unhealthy"
      else if "degraded" ∈ statuses then "degraded"
      else "healthy" := by
  simp only [determineOverallStatus]
  by_cases hu : "unhealthy" ∈ statuses
  · rw [if_pos ((countP_eq_pos_iff_mem statuses "unhealthy").mpr hu),
      if_pos hu]
  · rw [if_neg (fun hc => hu ((countP_eq_pos_iff_mem statuses "unhealthy").mp hc)),
      if_neg hu]
    by_cases hd : "degraded" ∈ statuses
    · rw [if_pos (Or.inl ((countP_eq_pos_iff_mem statuses "degraded").mpr hd)),
        if_pos hd]
    · rw [if_neg, if_neg hd]
      rintro (hc | hc)
      · exact hd ((countP_eq_pos_iff_mem statuses "degraded").mp hc)
      · exact hu ((countP_eq_pos_iff_mem statuses "unhealthy").mp hc)

/-- C5 (amended): the overall status computed by check_overall_health is
_determine_overall_status of the per-service statuses alone: it is
unhealthy iff some ServiceHealth status is unhealthy; otherwise degraded
iff some ServiceHealth status is degraded; otherwise healthy. The
collected circuit-breaker snapshots and the timeout-event log are carried
in the SystemHealth data but play no part in the status. -/
theorem overallHealth_status_characterization
    (serviceStatuses : List String)
    (breakers breakers2 : List (String × String))
    (log log2 : List TimeoutEvent) :
    (checkOverallHealth serviceStatuses breakers log).status =
      determineOverallStatus serviceStatuses ∧
    (checkOverallHealth serviceStatuses breakers log).status =
      (checkOverallHealth serviceStatuses breakers2 log2).status ∧
    (determineOverallStatus serviceStatuses = "unhealthy" ↔
      "unhealthy" ∈ serviceStatuses) ∧
    ("unhealthy" ∉ serviceStatuses →
      (determineOverallStatus serviceStatuses = "degraded" ↔
        "degraded" ∈ serviceStatuses)) ∧
    ("unhealthy" ∉ serviceStatuses → "degraded" ∉ serviceStatuses →
      determineOverallStatus serviceStatuses = "healthy") := by
  refine ⟨rfl, rfl, ?_, ?_, ?_⟩
  · rw [determineOverallStatus_eq]
    by_cases hu : "unhealthy" ∈ serviceStatuses
    · simp [hu]
    · by_cases hd : "degraded" ∈ serviceStatuses <;> simp [hu, hd]
  · intro hu
    rw [determineOverallStatus_eq, if_neg hu]
    by_cases hd : "degraded" ∈ serviceStatuses <;> simp [hd]
  · intro hu hd
    rw [determineOverallStatus_eq, if_neg hu, if_neg hd]

/-- Witness for C5 at concrete inputs: one unhealthy service gives
unhealthy; a degraded service (none unhealthy) gives degraded; all
healthy gives healthy. -/
theorem overallHealth_status_characterization_witness :
    (checkOverallHealth ["healthy", "unhealthy"] [] []).status =
      determineOverallStatus ["healthy", "unhealthy"] ∧
    (determineOverallStatus ["healthy", "unhealthy"] = "unhealthy" ↔
      "unhealthy" ∈ ["healthy", "unhealthy"]) ∧
    (determineOverallStatus ["healthy", "degraded"] = "degraded" ↔
      "degraded" ∈ ["healthy", "degraded"]) ∧
    determineOverallStatus ["healthy", "healthy"] = "healthy" := by
  refine ⟨(overallHealth_status_characterization
      ["healthy", "unhealthy"] [] [] [] []).1,
    (overallHealth_status_characterization
      ["healthy", "unhealthy"] [] [] [] []).2.2.1,
    (overallHealth_status_characterization
      ["healthy", "degraded"] [] [] [] []).2.2.2.1 (by decide),
    (overallHealth_status_characterization
      ["healthy", "healthy"] [] [] [] []).2.2.2.2 (by decide) (by decide)⟩

/-- Counterexample to C5 as stated: all four service probes healthy, the
openai breaker snapshot OPEN and an empty timeout log. The claim
requires overall status degraded (a breaker is OPEN); the code ignores
breaker snapshots and timeout events in _determine_overall_status and
returns healthy. -/
theorem overallHealth_ignores_open_breaker_counterexample :
    (checkOverallHealth ["healthy", "healthy", "healthy", "healthy"]
      [("openai", "open")] []).status = "healthy" ∧
    (checkOverallHealth ["healthy", "healthy", "healthy", "healthy"]
      [("openai", "open")] []).status ≠ "degraded" ∧
    "open" ∈ ([("openai", "open")].map Prod.snd) := by
  refine ⟨by decide, by decide, by decide⟩

/-!
Route timeout middleware.
-/

/-- C8 (confirmed): dispatch resolves its timeout by the exact
METHOD:path lookup with fallback to default_timeout; the wait of the
caller is bounded by the resolved timeout whatever the handler duration;
and when the handler exceeds the resolved timeout, dispatch raises the
TimeoutException with error_code TIMEOUT_ERROR and status_code 408 whose
details carry timeout_limit = the resolved timeout, the elapsed
actual_duration, the path and the method, the caller having waited only
the resolved timeout. -/
theorem dispatch_timeout_behavior {Response : Type}
    (mw : TimeoutMiddleware) (path method : String)
    (handler : Handler Response) :
    getTimeoutForRoute mw path method =
      (mw.routeTimeouts.lookup (method ++ ":" ++ path)).getD
        mw.defaultTimeout ∧
    (dispatch mw path method handler).callerWait ≤
      getTimeoutForRoute mw path method ∧
    (getTimeoutForRoute mw path method < handler.duration →
      (dispatch mw path method handler).result =
        .error { message := "Request timed out",
                 errorCode := "TIMEOUT_ERROR", statusCode := 408,
                 details :=
                   { timeoutLimit := getTimeoutForRoute mw path method,
                     actualDuration := getTimeoutForRoute mw path method,
                     path := path, method := method } } ∧
      (dispatch mw path method handler).callerWait =
        getTimeoutForRoute mw path method) := by
  refine ⟨rfl, ?_, ?_⟩
  · simp only [dispatch]
    split_ifs with hd
    · exact hd
    · exact le_refl _
  · intro hover
    simp only [dispatch]
    rw [if_neg (not_le.mpr hover)]
    exact ⟨rfl, rfl⟩

/-- Witness for C8, the spec's example: default_timeout 1/10 s, no route
overrides, a handler that would take 1 s: dispatch raises the 408
TIMEOUT_ERROR with timeout_limit 1/10 and the caller waits 1/10 s, not
1 s. -/
theorem dispatch_timeout_behavior_witness :
    (dispatch { defaultTimeout := 1/10, routeTimeouts := [] } "/api/x" "GET"
      ({ duration := 1, response := 0 } : Handler Nat)).result =
      .error { message := "Request timed out",
               errorCode := "TIMEOUT_ERROR", statusCode := 408,
               details := { timeoutLimit := 1/10, actualDuration := 1/10,
                            path := "/api/x", method := "GET" } } ∧
    (dispatch { defaultTimeout := 1/10, routeTimeouts := [] } "/api/x" "GET"
      ({ duration := 1, response := 0 } : Handler Nat)).callerWait = 1/10 :=
  (dispatch_timeout_behavior
    { defaultTimeout := 1/10, routeTimeouts := [] } "/api/x" "GET"
    { duration := 1, response := 0 }).2.2
    (by norm_num [getTimeoutForRoute, List.lookup])

/-!
Timeout manager.
-/

/-- C9 (confirmed): get_timeout returns the per-operation configured
value for each of the six known operations and the default for any other
operation, for every environment; with no environment overrides
analyze_code resolves to 60 and an unknown operation to 30; with the
override OPENAI_ANALYZE_CODE_TIMEOUT=60 and default 30 the same values
result. A total function: it never fails. -/
theorem getTimeout_override_or_default (env : ConfigEnv) (op : String)
    (hop : op ∉ knownTimeoutOperations) :
    getTimeout (loadConfig env) "analyze_code" =
      (env "OPENAI_ANALYZE_CODE_TIMEOUT").getD 60 ∧
    getTimeout (loadConfig env) op = (env "OPENAI_DEFAULT_TIMEOUT").getD 30 ∧
    getTimeout (loadConfig (fun _ => none)) "analyze_code" = 60 ∧
    getTimeout (loadConfig (fun _ => none)) "unknown" = 30 ∧
    getTimeout (loadConfig
      (fun k => if k = "OPENAI_ANALYZE_CODE_TIMEOUT" then some 60 else none))
      "analyze_code" = 60 ∧
    getTimeout (loadConfig
      (fun k => if k = "OPENAI_ANALYZE_CODE_TIMEOUT" then some 60 else none))
      "unknown" = 30 := by
  simp only [knownTimeoutOperations, List.mem_cons, List.mem_singleton,
    not_or] at hop
  refine ⟨rfl, ?_, rfl, rfl, rfl, rfl⟩
  simp [getTimeout, loadConfig, List.lookup,
    beq_eq_false_iff_ne.mpr hop.1, beq_eq_false_iff_ne.mpr hop.2.1,
    beq_eq_false_iff_ne.mpr hop.2.2.1, beq_eq_false_iff_ne.mpr hop.2.2.2.1,
    beq_eq_false_iff_ne.mpr hop.2.2.2.2.1,
    beq_eq_false_iff_ne.mpr hop.2.2.2.2.2.1]

/-- Witness for C9 at the empty environment and the unknown operation
name used by the spec scenario. -/
theorem getTimeout_override_or_default_witness :
    getTimeout (loadConfig (fun _ => none)) "unknown" = 30 ∧
    getTimeout (loadConfig (fun _ => none)) "analyze_code" = 60 :=
  ⟨(getTimeout_override_or_default (fun _ => none) "unknown"
      (by decide)).2.1,
   (getTimeout_override_or_default (fun _ => none) "unknown"
      (by decide)).2.2.1⟩

/-!
Reachability invariant: a breaker outside CLOSED always carries a
failure timestamp, so the OPEN branch of _should_attempt_request never
subtracts from None.
-/

/-- The safety invariant of C10: state OPEN or HALF_OPEN implies a
present last_failure_time. -/
def breakerTimeInv (cb : CircuitBreaker) : Prop :=
  cb.state = .open ∨ cb.state = .halfOpen → cb.lastFailureTime ≠ none

/-- Every single operation is defined on an invariant state and
preserves the invariant. -/
theorem applyBreakerOp_preserves_inv (cb : CircuitBreaker)
    (op : BreakerOp) (h : breakerTimeInv cb) :
    ∃ cb', applyBreakerOp cb op = some cb' ∧ breakerTimeInv cb' := by
  cases op with
  | success =>
    refine ⟨recordSuccess cb, rfl, ?_⟩
    rw [recordSuccess_eq]
    by_cases hs : cb.state = .halfOpen
    · rw [if_pos hs]
      intro _
      show cb.lastFailureTime ≠ none
      exact h (Or.inr hs)
    · rw [if_neg hs]
      intro hst
      exact h hst
  | failure t =>
    refine ⟨recordFailure t cb, rfl, ?_⟩
    intro _
    rw [(recordFailure_fields t cb).2.2.2]
    simp
  | attempt t =>
    cases hst : cb.state
    · refine ⟨cb, ?_, h⟩
      simp [applyBreakerOp, shouldAttemptRequest_closed t cb hst]
    · have hl := h (Or.inl hst)
      cases hlv : cb.lastFailureTime with
      | none => exact absurd hlv hl
      | some t0 =>
        by_cases hrt : cb.config.recoveryTimeout ≤ t - t0
        · refine ⟨{ cb with state := .halfOpen, successCount := 0 }, ?_, ?_⟩
          · simp [applyBreakerOp,
              shouldAttemptRequest_open_recovered t cb t0 hst hlv hrt]
          · intro _
            show cb.lastFailureTime ≠ none
            exact hl
        · refine ⟨cb, ?_, h⟩
          simp [applyBreakerOp,
            shouldAttemptRequest_open_denied t cb t0 hst hlv (not_le.mp hrt)]
    · refine ⟨cb, ?_, h⟩
      simp [applyBreakerOp, shouldAttemptRequest_halfOpen t cb hst]

/-- Running any operation sequence from an invariant state never crashes
and ends in an invariant state. -/
theorem runBreakerOps_preserves_inv (ops : List BreakerOp) :
    ∀ cb : CircuitBreaker, breakerTimeInv cb →
      ∃ cb', runBreakerOps ops cb = some cb' ∧ breakerTimeInv cb' := by
  induction ops with
  | nil => intro cb h; exact ⟨cb, rfl, h⟩
  | cons op tl ih =>
    intro cb h
    obtain ⟨cb1, h1, h2⟩ := applyBreakerOp_preserves_inv cb op h
    obtain ⟨cb', h3, h4⟩ := ih cb1 h2
    refine ⟨cb', ?_, h4⟩
    show (applyBreakerOp cb op).bind (runBreakerOps tl) = some cb'
    rw [h1]
    exact h3

/-- C10 (confirmed): from the initial breaker state (CLOSED, counters 0,
last_failure_time None), every sequence of _record_success,
_record_failure and _should_attempt_request operations runs to
completion; the reached state satisfies: state OPEN or HALF_OPEN implies
last_failure_time is not None; hence _should_attempt_request at any time
is well-defined on it (its OPEN-branch subtraction never sees a None
operand, modelled as: it never returns none). -/
theorem reachable_breaker_time_welldefined (cfg : CircuitBreakerConfig)
    (ops : List BreakerOp) :
    ∃ cb', runBreakerOps ops (CircuitBreaker.init cfg) = some cb' ∧
      ((cb'.state = .open ∨ cb'.state = .halfOpen) →
        cb'.lastFailureTime ≠ none) ∧
      ∀ now : Rat, (shouldAttemptRequest now cb').isSome := by
  obtain ⟨cb', h1, h2⟩ := runBreakerOps_preserves_inv ops
    (CircuitBreaker.init cfg)
    (by intro hc; rcases hc with hc | hc <;> simp [CircuitBreaker.init] at hc)
  refine ⟨cb', h1, h2, ?_⟩
  intro now
  cases hst : cb'.state
  · simp [shouldAttemptRequest_closed now cb' hst]
  · cases hlv : cb'.lastFailureTime with
    | none => exact absurd hlv (h2 (Or.inl hst))
    | some t0 =>
      by_cases hrt : cb'.config.recoveryTimeout ≤ now - t0
      · simp [shouldAttemptRequest_open_recovered now cb' t0 hst hlv hrt]
      · simp [shouldAttemptRequest_open_denied now cb' t0 hst hlv
          (not_le.mp hrt)]
  · simp [shouldAttemptRequest_halfOpen now cb' hst]

/-- Witness for C10: a concrete run (a failure, a probe after the
recovery timeout, a success) from the default initial breaker. -/
theorem reachable_breaker_time_welldefined_witness :
    ∃ cb', runBreakerOps [.failure 0, .attempt 100, .success]
      (CircuitBreaker.init defaultCircuitBreakerConfig) = some cb' ∧
      ((cb'.state = .open ∨ cb'.state = .halfOpen) →
        cb'.lastFailureTime ≠ none) ∧
      ∀ now : Rat, (shouldAttemptRequest now cb').isSome :=
  reachable_breaker_time_welldefined defaultCircuitBreakerConfig
    [.failure 0, .attempt 100, .success]
